import Mathlib

/-!
Shallow embedding of the LLM translation service of vibe-zotero-translate
(`src/llm.ts`): preference resolution (`getStringPref`, `getConfig`),
prompt building (`isSingleWord`, `buildSystemPrompt`), request-body
building for the Bedrock Converse API and OpenAI-compatible APIs
(`buildBedrockBody`, `buildOpenAIBody`), the HTTP callers
(`callBedrock`, `callOpenAI`), the dispatcher `callModel`, and the
public operations `translateText` and `testConnection`.

JavaScript strings are modelled as Lean `String` (a list of code
points); `null`-able strings as `Option String`.  Rejected promises
are modelled as `Except String` values carrying the error message.
HTTP transport is modelled by an explicit `HttpOutcome` argument that
says how the single `Zotero.HTTP.request` call of one caller
invocation behaves; the functions additionally return the list of
HTTP requests they issued, so that request counts and request bodies
are observable.
-/

namespace VibeTranslate

/-- The whitespace class of the JavaScript `String.prototype.trim`
(ASCII whitespace, NBSP and BOM; other exotic Unicode space code
points do not occur in the claims and are omitted). -/
def jsWhitespace (c : Char) : Bool :=
  c == ' ' || c == '\t' || c == '\n' || c == '\r' ||
  c == '\x0b' || c == '\x0c' || c == '\u00A0' || c == '\uFEFF'

/-- Trim on code-point lists: drop leading and trailing whitespace. -/
def trimL (l : List Char) : List Char :=
  ((l.dropWhile jsWhitespace).reverse.dropWhile jsWhitespace).reverse

/-- JavaScript `s.trim()`. -/
def jsTrim (s : String) : String :=
  String.mk (trimL s.data)

/-- Boolean prefix test on code-point lists. -/
def isPrefixOfL : List Char → List Char → Bool
  | [], _ => true
  | _ :: _, [] => false
  | a :: as, b :: bs => a == b && isPrefixOfL as bs

/-- Boolean infix (substring) test on code-point lists. -/
def isInfixOfL (pat : List Char) : List Char → Bool
  | [] => isPrefixOfL pat []
  | b :: bs => isPrefixOfL pat (b :: bs) || isInfixOfL pat bs

/-- JavaScript `s.includes(pat)`. -/
def containsStr (s pat : String) : Bool :=
  isInfixOfL pat.data s.data

/-- JavaScript `s.toLowerCase()` (ASCII letters; sufficient for the
substrings compared in the claims). -/
def jsToLower (s : String) : String :=
  String.mk (s.data.map Char.toLower)

/-- Case-insensitive substring test, the comparison the specification
describes for the image-fallback condition. -/
def containsCI (s pat : String) : Bool :=
  containsStr (jsToLower s) (jsToLower pat)

/-- JavaScript `s.substring(0, 500)`. -/
def take500 (s : String) : String :=
  String.mk (s.data.take 500)

/-- JavaScript `s.endsWith(suffix)`. -/
def endsWithL (l suffix : List Char) : Bool :=
  isPrefixOfL suffix.reverse l.reverse

/-- Embedding of `url.replace(/\/+$/, "")`: strip every trailing slash. -/
def stripTrailingSlashes (l : List Char) : List Char :=
  (l.reverse.dropWhile (· == '/')).reverse

/-- The endpoint normalization of `callOpenAI` (src/llm.ts lines
239-243): strip trailing slashes, then append `/chat/completions`
unless the URL already ends with it. -/
def normalizeOpenAIEndpointL (l : List Char) : List Char :=
  let url := stripTrailingSlashes l
  if endsWithL url "/chat/completions".data then url
  else url ++ "/chat/completions".data

/-- String-level endpoint normalization. -/
def normalizeOpenAIEndpoint (s : String) : String :=
  String.mk (normalizeOpenAIEndpointL s.data)

/-- The `\w` character class of a JavaScript regex without the `u`
flag: ASCII letters, digits and underscore. -/
def isWordChar (c : Char) : Bool :=
  c.isAlpha || c.isDigit || c == '_'

/-- A line terminator for the JavaScript regex `.` (which matches any
character except these). -/
def isLineTerminator (c : Char) : Bool :=
  c == '\n' || c == '\r' || c == '\u2028' || c == '\u2029'

/-- Drop an expected literal prefix, or fail. -/
def dropPrefixL : List Char → List Char → Option (List Char)
  | [], l => some l
  | _ :: _, [] => none
  | a :: as, b :: bs => if a == b then dropPrefixL as bs else none

/-- The match of `/^data:(image\/\w+);base64,(.+)$/` performed by
`buildBedrockBody`, returning (format, base64 data): after the literal
`data:image/` a maximal nonempty run of word characters (the `\w+`;
`;` is not a word character, so greedy matching takes exactly the run),
then the literal `;base64,`, then one or more characters none of which
is a line terminator, up to the end of the string.  The `format`
component is already the second field of `group1.split("/")`. -/
def parseDataUrlL (l : List Char) : Option (List Char × List Char) :=
  match dropPrefixL "data:image/".data l with
  | none => none
  | some rest =>
    let fmt := rest.takeWhile isWordChar
    let rest2 := rest.dropWhile isWordChar
    if fmt.isEmpty then none
    else
      match dropPrefixL ";base64,".data rest2 with
      | none => none
      | some dat =>
        if dat.isEmpty then none
        else if dat.any isLineTerminator then none
        else some (fmt, dat)

/-- String-level data-URL match. -/
def parseDataUrl (s : String) : Option (String × String) :=
  match parseDataUrlL s.data with
  | none => none
  | some (fmt, dat) => some (String.mk fmt, String.mk dat)

/-- Embedding of `isSingleWord` (src/llm.ts lines 27-34): trim, then require that
no space, newline or tab occurs. -/
def isSingleWord (text : String) : Bool :=
  let trimmed := jsTrim text
  !(containsStr trimmed " ") && !(containsStr trimmed "\n") &&
    !(containsStr trimmed "\t")

/-- The preference store: each short key (the part after the constant
prefix `extensions.vibe-zotero-translate.`) maps to the stored string,
or to `none` when the preference is unset (in which case
`Zotero.Prefs.get` throws and `getStringPref` falls back). -/
def Prefs : Type := String → Option String

/-- Embedding of `getStringPref` (src/llm.ts lines 17-25): return the trimmed
stored value when it is truthy and nonempty after trimming, the
default otherwise. -/
def getStringPref (p : Prefs) (key dflt : String) : String :=
  match p key with
  | some v => if v ≠ "" ∧ 0 < (jsTrim v).data.length then jsTrim v else dflt
  | none => dflt

/-- The record returned by `getConfig`. -/
structure Config where
  provider : String
  apiKey : String
  modelId : String
  region : String
  openaiEndpoint : String
deriving DecidableEq, Repr

/-- Embedding of `getConfig` (src/llm.ts lines 38-62). -/
def getConfig (p : Prefs) : Except String Config :=
  let provider := getStringPref p "provider" "bedrock"
  if provider = "openai" then
    let apiKey := getStringPref p "openai.apiKey" ""
    let modelId := getStringPref p "openai.modelId" "gpt-4o"
    let endpoint := getStringPref p "openai.endpoint"
      "https://api.openai.com/v1/chat/completions"
    if apiKey = "" then
      .error "OpenAI API key not configured. Please set it in Vibe Translate preferences."
    else
      .ok ⟨provider, apiKey, modelId, "", endpoint⟩
  else
    let apiKey := getStringPref p "bedrock.apiKey" ""
    let modelId := getStringPref p "bedrock.modelId"
      "us.anthropic.claude-sonnet-4-5-20250929-v1:0"
    let region := getStringPref p "bedrock.region" "us-east-1"
    if apiKey = "" then
      .error "Bedrock API key not configured. Please set it in Vibe Translate preferences."
    else
      .ok ⟨provider, apiKey, modelId, region, ""⟩

/-- Embedding of `buildSystemPrompt` (src/llm.ts lines 66-111): four template
literals selected by the single-word and screenshot flags, with the
target language interpolated. -/
def buildSystemPrompt (targetLanguage : String) (singleWord hasScreenshot : Bool) : String :=
  if singleWord && hasScreenshot then
    "You are a concise dictionary. Translate the word to " ++ targetLanguage ++ ".\nSTRICT rules: Only output in the exact format below. No explanations, no examples, no extra text.\nUse fixed-width alignment: pad the part-of-speech tag to exactly 6 characters wide.\n\nFormat:\n[\u00CB\u00D8\u00E7\u00CA\u00C4\u00DF  ] \u00C2\u00EA\u00B4\u2030\u03C0\u00E2\n\uF8FF\u00FC\u00EC\u00E5 \u2030\u220F\u00E4\u2030\u220F\u00E3\u00CA\u00F1\u00E1\u00C2\u00EA\u00B4\u2030\u03C0\u00E2\n\nExample output for \"bank\":\n[n.   ] \u00C8\u00EC\u2202\u00CB\u00B0\u00E5; \u00CA\u2264\u2265\u00C2\u2264\u220F\n[v.   ] \u00C2\u2260\u00F2\u00CA\u00A8\u00E6\n\uF8FF\u00FC\u00EC\u00E5 \u00CA\u2260\u00A7\u00C2\u00A7\u00D1\u00CA\u00E5\u00E1\"\u00CA\u2264\u2265\u00C2\u2264\u220F\""
  else if singleWord && !hasScreenshot then
    "You are a concise dictionary. Translate the word to " ++ targetLanguage ++ ".\nSTRICT rules: Only output in the exact format below. No explanations, no examples, no extra text.\nUse fixed-width alignment: pad the part-of-speech tag to exactly 6 characters wide.\n\nFormat:\n[\u00CB\u00D8\u00E7\u00CA\u00C4\u00DF  ] \u00C2\u00EA\u00B4\u2030\u03C0\u00E21; \u00C2\u00EA\u00B4\u2030\u03C0\u00E22\n\nExample output for \"run\":\n[v.   ] \u00CB\u2211\u00EB; \u00CB\u00F8\u00EA\u00CB\u00B0\u00E5; \u00C1\u00AA\u00E8\u00CB\u00EA\u2022\n[n.   ] \u00C2\u2022\u00EE\u00CB\u2211\u00EB; \u00CB\u00F8\u00EA\u00CB\u03A9\u00A8"
  else if !singleWord && hasScreenshot then
    "You are a professional translator. Translate the following text to " ++ targetLanguage ++ ".\nUse the page screenshot as context to improve accuracy for domain-specific terms.\n\nOutput format example:\n\u00CB\u00F8\u00F4\u00CA\u00F2\u00D8\u00C1\u00F8\u00AA\u00CB\u00D8\u00EB\u00C1\u00AA\u00EC\u00CA\u00FB\u00FA\n\n\uF8FF\u00FC\u00EC\u00E5 \"term\" \u00C2\u00FA\u00AE\u00CA\u2260\u00A7\u2030\u220F\u00E4\u2030\u220F\u00E3\u00CA\u00F1\u00E1\u2030\u220F\u2260\u00CB\u00D8\u00EB\u2030\u220F\u222B\"\u00CA\u00FA\u00D8\u00CB\u00D8\u2260\""
  else
    "You are a professional translator. Translate the following text to " ++ targetLanguage ++ ".\nOnly output the translation result, nothing else."

/-- One element of the `content` array of the Bedrock user message:
either a text part or an image part (format and base64 bytes). -/
inductive BedrockPart where
  | text : String → BedrockPart
  | image : String → String → BedrockPart
deriving DecidableEq, Repr

/-- The `inferenceConfig` object; the temperature 0.1 is represented
as the rational 1/10. -/
structure InferenceConfig where
  maxTokens : Nat
  temperature : ℚ
deriving DecidableEq, Repr

/-- One message of the Bedrock request. -/
structure BedrockMessage where
  role : String
  content : List BedrockPart
deriving DecidableEq, Repr

/-- The Bedrock Converse request body. -/
structure BedrockBody where
  system : List String
  messages : List BedrockMessage
  inferenceConfig : InferenceConfig
deriving DecidableEq, Repr

/-- Embedding of `buildBedrockBody` (src/llm.ts lines 115-148): one text part, and,
when a truthy screenshot matches the data-URL regex, an image part
with the extracted format and base64 data appended. -/
def buildBedrockBody (systemPrompt userText : String)
    (pageScreenshot : Option String) : BedrockBody :=
  let userContent :=
    match pageScreenshot with
    | some s =>
      if s = "" then [BedrockPart.text userText]
      else
        match parseDataUrl s with
        | some (fmt, dat) => [BedrockPart.text userText, BedrockPart.image fmt dat]
        | none => [BedrockPart.text userText]
    | none => [BedrockPart.text userText]
  { system := [systemPrompt],
    messages := [⟨"user", userContent⟩],
    inferenceConfig := ⟨4096, 1 / 10⟩ }

/-- One element of the `content` array of the OpenAI user message. -/
inductive OpenAIPart where
  | text : String → OpenAIPart
  | imageUrl : String → OpenAIPart
deriving DecidableEq, Repr

/-- The OpenAI-compatible request body (the system message carries a
plain string, the user message the content array). -/
structure OpenAIBody where
  model : String
  systemContent : String
  userContent : List OpenAIPart
  maxTokens : Nat
  temperature : ℚ
deriving DecidableEq, Repr

/-- Embedding of `buildOpenAIBody` (src/llm.ts lines 203-231): one text part, and,
when the screenshot is truthy, an image-url part holding the
screenshot string unmodified. -/
def buildOpenAIBody (systemPrompt userText : String)
    (pageScreenshot : Option String) (modelId : String) : OpenAIBody :=
  let userContent :=
    match pageScreenshot with
    | some s =>
      if s = "" then [OpenAIPart.text userText]
      else [OpenAIPart.text userText, OpenAIPart.imageUrl s]
    | none => [OpenAIPart.text userText]
  { model := modelId,
    systemContent := systemPrompt,
    userContent := userContent,
    maxTokens := 4096,
    temperature := 1 / 10 }

/-- One part of `response.output.message.content` of a parsed Bedrock
response; `text` is `none` when the part has no text field. -/
structure RespPart where
  text : Option String
deriving DecidableEq, Repr

/-- The projections of the JSON value `JSON.parse` yields for the
response text that the two callers read: the optional chain
`response?.output?.message?.content` and the optional chain
`response?.choices?.[0]?.message?.content`, plus the string
`JSON.stringify(response)` used in the unexpected-response error. -/
structure ParsedResponse where
  bedrockContent : Option (List RespPart)
  openaiContent : Option String
  stringified : String
deriving DecidableEq, Repr

/-- How one `Zotero.HTTP.request` call behaves: it resolves with a
status, the parsed response and the raw response text, or it rejects
with an exception carrying an `xmlhttp` (status and response text), or
it rejects with a plain exception message. -/
inductive HttpOutcome where
  | ok : Nat → ParsedResponse → String → HttpOutcome
  | errXhr : Nat → String → HttpOutcome
  | errPlain : String → HttpOutcome
deriving DecidableEq, Repr

/-- The destination of an issued request.  The Bedrock URL is
`https://bedrock-runtime.{region}.amazonaws.com/model/{id}/converse`
with the model id URI-component-encoded; it is kept in components here
(the encoding plays no role in the claims).  The OpenAI URL is the
normalized endpoint string. -/
inductive ReqUrl where
  | bedrock : String → String → ReqUrl
  | openai : String → ReqUrl
deriving DecidableEq, Repr

/-- The serialized body of an issued request. -/
inductive ReqBody where
  | bedrock : BedrockBody → ReqBody
  | openai : OpenAIBody → ReqBody
deriving DecidableEq, Repr

/-- One issued HTTP POST (the bearer token is the api key). -/
structure HttpRequest where
  url : ReqUrl
  apiKey : String
  body : ReqBody
deriving DecidableEq, Repr

/-- The text extraction of `callBedrock` on a well-shaped response:
keep the parts whose `text` is truthy and join them with newlines. -/
def extractBedrockText (parts : List RespPart) : String :=
  String.intercalate "\n"
    (parts.filterMap fun part =>
      match part.text with
      | some t => if t = "" then none else some t
      | none => none)

/-- Embedding of `callBedrock` (src/llm.ts lines 150-199).  Re-resolves the
configuration as the source does; returns the result together with the
list of issued requests (empty when `getConfig` throws). -/
def callBedrock (p : Prefs) (modelId : String) (requestBody : BedrockBody)
    (o : HttpOutcome) : Except String String × List HttpRequest :=
  match getConfig p with
  | .error m => (.error m, [])
  | .ok cfg =>
    let req : HttpRequest :=
      ⟨ReqUrl.bedrock cfg.region modelId, cfg.apiKey, ReqBody.bedrock requestBody⟩
    let result : Except String String :=
      match o with
      | .errXhr status responseText =>
        .error ("Bedrock API error (" ++ toString status ++ "): " ++
          take500 responseText)
      | .errPlain msg => .error ("HTTP request failed: " ++ msg)
      | .ok status resp responseText =>
        if status ≠ 200 then
          .error ("Bedrock API error (" ++ toString status ++ "): " ++
            take500 responseText)
        else
          match resp.bedrockContent with
          | some parts => .ok (extractBedrockText parts)
          | none => .error ("Unexpected Bedrock response: " ++ resp.stringified)
    (result, [req])

/-- Embedding of `callOpenAI` (src/llm.ts lines 233-284), with the endpoint
normalization of lines 239-243. -/
def callOpenAI (p : Prefs) (requestBody : OpenAIBody)
    (o : HttpOutcome) : Except String String × List HttpRequest :=
  match getConfig p with
  | .error m => (.error m, [])
  | .ok cfg =>
    let url := normalizeOpenAIEndpoint cfg.openaiEndpoint
    let req : HttpRequest :=
      ⟨ReqUrl.openai url, cfg.apiKey, ReqBody.openai requestBody⟩
    let result : Except String String :=
      match o with
      | .errXhr status responseText =>
        .error ("OpenAI API error (" ++ toString status ++ "): " ++
          take500 responseText)
      | .errPlain msg => .error ("HTTP request failed: " ++ msg)
      | .ok status resp responseText =>
        if status ≠ 200 then
          .error ("OpenAI API error (" ++ toString status ++ "): " ++
            take500 responseText)
        else
          match resp.openaiContent with
          | some content => .ok content
          | none => .error ("Unexpected OpenAI response: " ++ resp.stringified)
    (result, [req])

/-- Embedding of `callModel` (src/llm.ts lines 288-302): resolve the configuration,
build the provider body and dispatch to the provider caller. -/
def callModel (p : Prefs) (systemPrompt userText : String)
    (pageScreenshot : Option String) (o : HttpOutcome) :
    Except String String × List HttpRequest :=
  match getConfig p with
  | .error m => (.error m, [])
  | .ok cfg =>
    if cfg.provider = "openai" then
      callOpenAI p (buildOpenAIBody systemPrompt userText pageScreenshot cfg.modelId) o
    else
      callBedrock p cfg.modelId (buildBedrockBody systemPrompt userText pageScreenshot) o

/-- The argument record of `translateText`. -/
structure TranslationInput where
  text : String
  pageScreenshot : Option String
  pageNumber : Option Int
deriving DecidableEq, Repr

/-- Embedding of `!!input.pageScreenshot`: a screenshot counts only when present
and nonempty (the empty string is falsy). -/
def hasScreenshotB (input : TranslationInput) : Bool :=
  match input.pageScreenshot with
  | some s => s ≠ ""
  | none => false

/-- The resolved target language of `translateText`. -/
def targetLangOf (p : Prefs) : String :=
  getStringPref p "targetLanguage" "zh-CN"

/-- The user text of `translateText`: prefix `Word: ` for a single
word, `Text: ` otherwise. -/
def userTextOf (input : TranslationInput) : String :=
  if isSingleWord input.text then "Word: " ++ input.text
  else "Text: " ++ input.text

/-- The first model call of `translateText` (src/llm.ts lines
319-323). -/
def firstAttempt (p : Prefs) (input : TranslationInput) (o : HttpOutcome) :
    Except String String × List HttpRequest :=
  callModel p
    (buildSystemPrompt (targetLangOf p) (isSingleWord input.text) (hasScreenshotB input))
    (userTextOf input)
    (if hasScreenshotB input then input.pageScreenshot else none)
    o

/-- The fallback model call of `translateText` (src/llm.ts lines
331-332): prompt rebuilt without the screenshot flag, no image. -/
def fallbackAttempt (p : Prefs) (input : TranslationInput) (o : HttpOutcome) :
    Except String String × List HttpRequest :=
  callModel p
    (buildSystemPrompt (targetLangOf p) (isSingleWord input.text) false)
    (userTextOf input)
    none
    o

/-- Embedding of `translateText` (src/llm.ts lines 304-338).  `o₁` drives the HTTP
call of the first attempt, `o₂` the one of the fallback attempt (when
it happens). -/
def translateText (p : Prefs) (input : TranslationInput)
    (o₁ o₂ : HttpOutcome) : Except String String × List HttpRequest :=
  match getConfig p with
  | .error m => (.error m, [])
  | .ok _ =>
    match firstAttempt p input o₁ with
    | (.ok result, reqs) => (.ok (jsTrim result), reqs)
    | (.error e, reqs) =>
      if hasScreenshotB input &&
          (containsStr e "image" || containsStr e "Image") then
        match fallbackAttempt p input o₂ with
        | (.ok result, reqs₂) => (.ok (jsTrim result), reqs ++ reqs₂)
        | (.error e₂, reqs₂) => (.error e₂, reqs ++ reqs₂)
      else
        (.error e, reqs)

/-- Embedding of `testConnection` (src/llm.ts lines 340-351): fixed prompt and user
text, no image, result returned as extracted (not trimmed). -/
def testConnection (p : Prefs) (o : HttpOutcome) :
    Except String String × List HttpRequest :=
  match getConfig p with
  | .error m => (.error m, [])
  | .ok _ =>
    callModel p "You are a helpful assistant. Reply in one short sentence."
      "Say hello and confirm you are working." none o

/-- The system prompt recorded in an issued request. -/
def reqSystemPrompt (r : HttpRequest) : Option String :=
  match r.body with
  | .bedrock b => b.system.head?
  | .openai b => some b.systemContent

/-- The user text recorded in an issued request (the first text part
of the user content). -/
def reqUserText (r : HttpRequest) : Option String :=
  match r.body with
  | .bedrock b =>
    match b.messages.head? with
    | some m =>
      match m.content.head? with
      | some (BedrockPart.text t) => some t
      | _ => none
    | none => none
  | .openai b =>
    match b.userContent.head? with
    | some (OpenAIPart.text t) => some t
    | _ => none

/-- Whether an issued request carries an image part. -/
def reqHasImage (r : HttpRequest) : Bool :=
  match r.body with
  | .bedrock b =>
    b.messages.any fun m =>
      m.content.any fun part =>
        match part with
        | BedrockPart.image _ _ => true
        | _ => false
  | .openai b =>
    b.userContent.any fun part =>
      match part with
      | OpenAIPart.imageUrl _ => true
      | _ => false

/-- Whether an issued request went to Bedrock. -/
def isBedrockReq (r : HttpRequest) : Bool :=
  match r.body with
  | .bedrock _ => true
  | .openai _ => false

/-- The image tail of the Bedrock user content. -/
def bedrockTailParts (pageScreenshot : Option String) : List BedrockPart :=
  match pageScreenshot with
  | some s =>
    if s = "" then []
    else
      match parseDataUrl s with
      | some (fmt, dat) => [BedrockPart.image fmt dat]
      | none => []
  | none => []

/-- The image tail of the OpenAI user content. -/
def openaiTailParts (pageScreenshot : Option String) : List OpenAIPart :=
  match pageScreenshot with
  | some s => if s = "" then [] else [OpenAIPart.imageUrl s]
  | none => []

/-- The single request a `callModel` invocation issues once the
configuration resolved. -/
def mkRequest (cfg : Config) (sp ut : String) (img : Option String) : HttpRequest :=
  if cfg.provider = "openai" then
    ⟨ReqUrl.openai (normalizeOpenAIEndpoint cfg.openaiEndpoint), cfg.apiKey,
      ReqBody.openai (buildOpenAIBody sp ut img cfg.modelId)⟩
  else
    ⟨ReqUrl.bedrock cfg.region cfg.modelId, cfg.apiKey,
      ReqBody.bedrock (buildBedrockBody sp ut img)⟩

lemma buildBedrockBody_eq (sp ut : String) (img : Option String) :
    buildBedrockBody sp ut img =
      ⟨[sp], [⟨"user", BedrockPart.text ut :: bedrockTailParts img⟩], ⟨4096, 1 / 10⟩⟩ := by
  rcases img with _ | s
  · rfl
  · by_cases hs : s = ""
    · simp [buildBedrockBody, bedrockTailParts, hs]
    · rcases hp : parseDataUrl s with _ | ⟨fmt, dat⟩ <;>
        simp [buildBedrockBody, bedrockTailParts, hs, hp]

lemma buildOpenAIBody_eq (sp ut : String) (img : Option String) (mid : String) :
    buildOpenAIBody sp ut img mid =
      ⟨mid, sp, OpenAIPart.text ut :: openaiTailParts img, 4096, 1 / 10⟩ := by
  rcases img with _ | s
  · rfl
  · by_cases hs : s = "" <;> simp [buildOpenAIBody, openaiTailParts, hs]

lemma callModel_snd (p : Prefs) (cfg : Config) (sp ut : String)
    (img : Option String) (o : HttpOutcome) (hc : getConfig p = .ok cfg) :
    (callModel p sp ut img o).2 = [mkRequest cfg sp ut img] := by
  by_cases hp : cfg.provider = "openai" <;>
    simp [callModel, callBedrock, callOpenAI, mkRequest, hc, hp]

lemma reqSystemPrompt_mkRequest (cfg : Config) (sp ut : String) (img : Option String) :
    reqSystemPrompt (mkRequest cfg sp ut img) = some sp := by
  by_cases hp : cfg.provider = "openai" <;>
    simp [mkRequest, reqSystemPrompt, hp, buildBedrockBody_eq, buildOpenAIBody_eq]

lemma reqUserText_mkRequest (cfg : Config) (sp ut : String) (img : Option String) :
    reqUserText (mkRequest cfg sp ut img) = some ut := by
  by_cases hp : cfg.provider = "openai" <;>
    simp [mkRequest, reqUserText, hp, buildBedrockBody_eq, buildOpenAIBody_eq]

lemma reqHasImage_mkRequest_none (cfg : Config) (sp ut : String) :
    reqHasImage (mkRequest cfg sp ut none) = false := by
  by_cases hp : cfg.provider = "openai" <;>
    simp [mkRequest, reqHasImage, hp, buildBedrockBody_eq, buildOpenAIBody_eq,
      bedrockTailParts, openaiTailParts]

lemma dropWhile_self_idem (q : Char → Bool) (l : List Char) :
    (l.dropWhile q).dropWhile q = l.dropWhile q := by
  induction l with
  | nil => rfl
  | cons a as ih =>
    cases ha : q a <;> simp [List.dropWhile_cons, ha, ih]

lemma head_dropWhile_false (q : Char → Bool) (l : List Char) (a : Char)
    (t : List Char) (h : l.dropWhile q = a :: t) : q a = false := by
  induction l with
  | nil => simp at h
  | cons b bs ih =>
    cases hb : q b
    · rw [List.dropWhile_cons, if_neg (by simp [hb])] at h
      cases h
      exact hb
    · rw [List.dropWhile_cons, if_pos (by simp [hb])] at h
      exact ih h

lemma getLast?_dropWhile (q : Char → Bool) (l : List Char)
    (h : l.dropWhile q ≠ []) : (l.dropWhile q).getLast? = l.getLast? := by
  induction l with
  | nil => simp at h
  | cons b bs ih =>
    cases hb : q b
    · simp [List.dropWhile_cons, hb]
    · rw [List.dropWhile_cons, if_pos (by simp [hb])] at h ⊢
      have hbs : bs.dropWhile q ≠ [] := h
      have hbsne : bs ≠ [] := by
        intro e
        subst e
        simp at hbs
      rw [ih hbs]
      cases bs with
      | nil => exact absurd rfl hbsne
      | cons c cs => exact (List.getLast?_cons_cons).symm

lemma trimL_idem (l : List Char) : trimL (trimL l) = trimL l := by
  unfold trimL
  set u := l.dropWhile jsWhitespace with hu
  set v := u.reverse.dropWhile jsWhitespace with hv
  have hdv : List.dropWhile jsWhitespace v = v := by
    rw [hv]
    exact dropWhile_self_idem _ _
  have step1 : List.dropWhile jsWhitespace v.reverse = v.reverse := by
    cases hvr : v.reverse with
    | nil => rfl
    | cons a t =>
      have hvne : v ≠ [] := by
        intro e
        rw [e] at hvr
        simp at hvr
      have hua : u.head? = some a := by
        have h1 : v.getLast? = u.head? := by
          rw [hv, getLast?_dropWhile _ _ (by rw [← hv]; exact hvne),
            List.getLast?_reverse]
        have h2 : v.getLast? = some a := by
          rw [← List.head?_reverse, hvr]
          rfl
        rw [← h1, h2]
      obtain ⟨t', hut⟩ : ∃ t', u = a :: t' := by
        cases hc : u with
        | nil =>
          rw [hc] at hua
          simp at hua
        | cons x xs =>
          rw [hc] at hua
          simp at hua
          exact ⟨xs, by rw [hua]⟩
      have ha : jsWhitespace a = false :=
        head_dropWhile_false jsWhitespace l a t' (by rw [← hu]; exact hut)
      rw [List.dropWhile_cons, if_neg (by simp [ha])]
  rw [step1, List.reverse_reverse, hdv]

lemma jsTrim_idem (s : String) : jsTrim (jsTrim s) = jsTrim s := by
  unfold jsTrim
  rw [show (String.mk (trimL s.data)).data = trimL s.data from rfl, trimL_idem]

lemma dropPrefixL_append (p t : List Char) : dropPrefixL p (p ++ t) = some t := by
  induction p with
  | nil => rfl
  | cons a as ih => simp [dropPrefixL, ih]

lemma isPrefixOfL_append (p t : List Char) : isPrefixOfL p (p ++ t) = true := by
  induction p with
  | nil => rfl
  | cons a as ih => simp [isPrefixOfL, ih]

lemma takeWhile_append_run (q : Char → Bool) (xs : List Char) (y : Char)
    (ys : List Char) (hx : ∀ a ∈ xs, q a = true) (hy : q y = false) :
    (xs ++ y :: ys).takeWhile q = xs ∧ (xs ++ y :: ys).dropWhile q = y :: ys := by
  induction xs with
  | nil =>
    constructor
    · simp [List.takeWhile_cons, hy]
    · simp [List.dropWhile_cons, hy]
  | cons a as ih =>
    have ha : q a = true := hx a (by simp)
    have hrec := ih (fun b hb => hx b (by simp [hb]))
    constructor
    · simp [List.takeWhile_cons, ha, hrec.1]
    · simp [List.dropWhile_cons, ha, hrec.2]

lemma isInfixOfL_single (c : Char) (l : List Char) :
    isInfixOfL [c] l = l.any (fun b => c == b) := by
  induction l with
  | nil => rfl
  | cons b bs ih => simp [isInfixOfL, isPrefixOfL, ih]

lemma stripTrailingSlashes_idem (l : List Char) :
    stripTrailingSlashes (stripTrailingSlashes l) = stripTrailingSlashes l := by
  unfold stripTrailingSlashes
  rw [List.reverse_reverse, dropWhile_self_idem]

lemma normalize_eq_pos (l : List Char)
    (h : endsWithL (stripTrailingSlashes l) "/chat/completions".data = true) :
    normalizeOpenAIEndpointL l = stripTrailingSlashes l := by
  unfold normalizeOpenAIEndpointL
  rw [if_pos h]

lemma normalize_eq_neg (l : List Char)
    (h : endsWithL (stripTrailingSlashes l) "/chat/completions".data = false) :
    normalizeOpenAIEndpointL l = stripTrailingSlashes l ++ "/chat/completions".data := by
  unfold normalizeOpenAIEndpointL
  rw [if_neg (by rw [h]; exact Bool.false_ne_true)]

lemma strip_append_completions (x : List Char) :
    stripTrailingSlashes (x ++ "/chat/completions".data) =
      x ++ "/chat/completions".data := by
  unfold stripTrailingSlashes
  rw [List.reverse_append,
    show "/chat/completions".data.reverse = 's' :: "/chat/completions".data.reverse.tail
      from rfl,
    List.cons_append, List.dropWhile_cons, if_neg (by decide),
    ← List.cons_append,
    ← show "/chat/completions".data.reverse = 's' :: "/chat/completions".data.reverse.tail
      from rfl,
    ← List.reverse_append, List.reverse_reverse]

lemma endsWith_append_completions (x : List Char) :
    endsWithL (x ++ "/chat/completions".data) "/chat/completions".data = true := by
  unfold endsWithL
  rw [List.reverse_append]
  exact isPrefixOfL_append _ _

lemma normalizeOpenAIEndpointL_idem (l : List Char) :
    normalizeOpenAIEndpointL (normalizeOpenAIEndpointL l) = normalizeOpenAIEndpointL l := by
  by_cases h : endsWithL (stripTrailingSlashes l) "/chat/completions".data = true
  · rw [normalize_eq_pos l h,
      normalize_eq_pos (stripTrailingSlashes l)
        (by rw [stripTrailingSlashes_idem]; exact h),
      stripTrailingSlashes_idem]
  · have hF : endsWithL (stripTrailingSlashes l) "/chat/completions".data = false := by
      cases hb : endsWithL (stripTrailingSlashes l) "/chat/completions".data
      · rfl
      · exact absurd hb h
    rw [normalize_eq_neg l hF,
      normalize_eq_pos (stripTrailingSlashes l ++ "/chat/completions".data)
        (by rw [strip_append_completions]; exact endsWith_append_completions _),
      strip_append_completions]

lemma parseDataUrlL_append (fmt dat : List Char) (hf : fmt ≠ [])
    (hfw : ∀ c ∈ fmt, isWordChar c = true) (hd : dat ≠ [])
    (hdl : ∀ c ∈ dat, isLineTerminator c = false) :
    parseDataUrlL ("data:image/".data ++ (fmt ++ (";base64,".data ++ dat))) =
      some (fmt, dat) := by
  obtain ⟨htake, hdrop⟩ := takeWhile_append_run isWordChar fmt ';'
    ("base64,".data ++ dat) hfw (by decide)
  have hsplit : fmt ++ (";base64,".data ++ dat) = fmt ++ ';' :: ("base64,".data ++ dat) := rfl
  have hany : dat.any isLineTerminator = false := by
    simp only [List.any_eq_false]
    intro c hc
    simp [hdl c hc]
  simp only [parseDataUrlL, dropPrefixL_append, hsplit, htake, hdrop]
  rw [show (';' :: ("base64,".data ++ dat)) = ";base64,".data ++ dat from rfl,
    dropPrefixL_append]
  simp [List.isEmpty_iff, hf, hd, hany]

lemma string_concat_data (a b c d : String) :
    (a ++ b ++ c ++ d).data = a.data ++ (b.data ++ (c.data ++ d.data)) := by
  rw [String.data_append, String.data_append, String.data_append,
    List.append_assoc, List.append_assoc]

lemma data_ne_nil_of_append (fmt dat : String) :
    ("data:image/" ++ fmt ++ ";base64," ++ dat) ≠ "" := by
  intro h
  have h2 := congrArg String.data h
  rw [string_concat_data] at h2
  simp [List.append_eq_nil] at h2

lemma parseDataUrl_append (fmt dat : String) (hf : fmt ≠ "")
    (hfw : ∀ c ∈ fmt.data, isWordChar c = true) (hd : dat ≠ "")
    (hdl : ∀ c ∈ dat.data, isLineTerminator c = false) :
    parseDataUrl ("data:image/" ++ fmt ++ ";base64," ++ dat) = some (fmt, dat) := by
  have hfd : fmt.data ≠ [] := by
    intro h
    exact hf (by cases fmt; simp_all)
  have hdd : dat.data ≠ [] := by
    intro h
    exact hd (by cases dat; simp_all)
  unfold parseDataUrl
  rw [show ("data:image/" ++ fmt ++ ";base64," ++ dat).data =
    "data:image/".data ++ (fmt.data ++ (";base64,".data ++ dat.data)) from
    string_concat_data "data:image/" fmt ";base64," dat]
  rw [parseDataUrlL_append fmt.data dat.data hfd hfw hdd hdl]

/-! Concrete fixtures used by witnesses and counterexamples. -/

/-- A preference store with only the Bedrock api key set. -/
def prefsBedrock : Prefs :=
  fun k => if k = "bedrock.apiKey" then some "test-key" else none

/-- An entirely empty preference store. -/
def prefsEmpty : Prefs := fun _ => none

/-- A store whose provider preference is the padded string. -/
def prefsPaddedOpenAI : Prefs :=
  fun k =>
    if k = "provider" then some " openai "
    else if k = "openai.apiKey" then some "k" else none

/-- A parsed response that is well-shaped for both providers, with
untrimmed text. -/
def respGood : ParsedResponse := ⟨some [⟨some "  hi  "⟩], some "  hi  ", "x"⟩

/-- A translation input with an attached screenshot. -/
def inputShot : TranslationInput := ⟨"hello", some "data:image/png;base64,AAAA", some 1⟩

/-- A successful transport outcome delivering `respGood`. -/
def okOutcome : HttpOutcome := .ok 200 respGood "raw"

/-! The claims. -/

/-- C4: the OpenAI endpoint normalization is idempotent, and the three
spelled-out inputs all normalize to the fully qualified chat completions
URL. -/
theorem normalizeOpenAIEndpoint_idem_spec :
    (∀ e, normalizeOpenAIEndpoint (normalizeOpenAIEndpoint e) = normalizeOpenAIEndpoint e) ∧
    normalizeOpenAIEndpoint "https://api.openai.com/v1" =
      "https://api.openai.com/v1/chat/completions" ∧
    normalizeOpenAIEndpoint "https://api.openai.com/v1/" =
      "https://api.openai.com/v1/chat/completions" ∧
    normalizeOpenAIEndpoint "https://api.openai.com/v1/chat/completions" =
      "https://api.openai.com/v1/chat/completions" := by
  refine ⟨?_, by decide, by decide, by decide⟩
  intro e
  unfold normalizeOpenAIEndpoint
  rw [show (String.mk (normalizeOpenAIEndpointL e.data)).data =
    normalizeOpenAIEndpointL e.data from rfl, normalizeOpenAIEndpointL_idem]

/-- C5: a well-formed data URI is split by the Bedrock builder into the
format and the base64 bytes with the prefix fully stripped, while the
OpenAI builder embeds the identical string unmodified in the image url
part. -/
theorem dataUrl_builders_spec (fmt dat sp ut mid : String)
    (hf : fmt ≠ "") (hfw : ∀ c ∈ fmt.data, isWordChar c = true)
    (hd : dat ≠ "") (hdl : ∀ c ∈ dat.data, isLineTerminator c = false) :
    buildBedrockBody sp ut (some ("data:image/" ++ fmt ++ ";base64," ++ dat)) =
      ⟨[sp], [⟨"user", [BedrockPart.text ut, BedrockPart.image fmt dat]⟩], ⟨4096, 1 / 10⟩⟩ ∧
    buildOpenAIBody sp ut (some ("data:image/" ++ fmt ++ ";base64," ++ dat)) mid =
      ⟨mid, sp,
        [OpenAIPart.text ut,
          OpenAIPart.imageUrl ("data:image/" ++ fmt ++ ";base64," ++ dat)],
        4096, 1 / 10⟩ := by
  have hne := data_ne_nil_of_append fmt dat
  have hp := parseDataUrl_append fmt dat hf hfw hd hdl
  constructor
  · simp [buildBedrockBody, hne, hp]
  · simp [buildOpenAIBody, hne]

/-- C5 witness at the concrete data URI of the claim. -/
theorem dataUrl_builders_spec_witness :
    buildBedrockBody "s" "u" (some "data:image/png;base64,AAAA") =
      ⟨["s"], [⟨"user", [BedrockPart.text "u", BedrockPart.image "png" "AAAA"]⟩],
        ⟨4096, 1 / 10⟩⟩ ∧
    buildOpenAIBody "s" "u" (some "data:image/png;base64,AAAA") "m" =
      ⟨"m", "s",
        [OpenAIPart.text "u", OpenAIPart.imageUrl "data:image/png;base64,AAAA"],
        4096, 1 / 10⟩ :=
  dataUrl_builders_spec "png" "AAAA" "s" "u" "m" (by decide) (by decide)
    (by decide) (by decide)

/-- C7: isSingleWord holds exactly when the trimmed text has no space,
tab or newline, and the four spelled-out examples behave as stated. -/
theorem isSingleWord_spec :
    (∀ t, isSingleWord t = true ↔
      ∀ c ∈ (jsTrim t).data, c ≠ ' ' ∧ c ≠ '\t' ∧ c ≠ '\n') ∧
    isSingleWord "hello" = true ∧
    isSingleWord "hello world" = false ∧
    isSingleWord "line1\nline2" = false ∧
    isSingleWord "  solo  " = true := by
  refine ⟨?_, by decide, by decide, by decide, by decide⟩
  intro t
  unfold isSingleWord containsStr
  dsimp only
  rw [isInfixOfL_single, isInfixOfL_single, isInfixOfL_single]
  simp only [Bool.and_eq_true, Bool.not_eq_true', List.any_eq_false, beq_iff_eq]
  constructor
  · rintro ⟨⟨h1, h2⟩, h3⟩ c hc
    exact ⟨fun e => h1 c hc e.symm, fun e => h3 c hc e.symm, fun e => h2 c hc e.symm⟩
  · intro h
    exact ⟨⟨fun c hc e => (h c hc).1 e.symm, fun c hc e => (h c hc).2.2 e.symm⟩,
      fun c hc e => (h c hc).2.1 e.symm⟩

/-- C7 witness: the trims-before-checking example, obtained from the
characterization. -/
theorem isSingleWord_spec_witness : isSingleWord "  solo  " = true :=
  (isSingleWord_spec.1 "  solo  ").mpr (by decide)

/-- C10: a truthy screenshot that does not match the data-URI pattern
is silently dropped; the Bedrock body holds only the text part and no
error is raised (the builder is total). -/
theorem buildBedrockBody_malformed_spec (s sp ut : String) (hne : s ≠ "")
    (hp : parseDataUrl s = none) :
    buildBedrockBody sp ut (some s) =
      ⟨[sp], [⟨"user", [BedrockPart.text ut]⟩], ⟨4096, 1 / 10⟩⟩ := by
  simp [buildBedrockBody, hne, hp]

/-- C10 witness at a malformed image string. -/
theorem buildBedrockBody_malformed_spec_witness :
    buildBedrockBody "s" "u" (some "nonsense") =
      ⟨["s"], [⟨"user", [BedrockPart.text "u"]⟩], ⟨4096, 1 / 10⟩⟩ :=
  buildBedrockBody_malformed_spec "nonsense" "s" "u" (by decide) rfl

/-- The api key `getConfig` resolves for the active provider. -/
def resolvedApiKey (p : Prefs) : String :=
  if getStringPref p "provider" "bedrock" = "openai" then
    getStringPref p "openai.apiKey" ""
  else
    getStringPref p "bedrock.apiKey" ""

/-- C3: getConfig fails exactly when the resolved api key is empty; a
failing getConfig makes translateText and testConnection reject with
no HTTP request issued; with a key the defaults are applied. -/
theorem getConfig_apiKey_spec :
    (∀ p : Prefs, (getConfig p).isOk = false ↔ resolvedApiKey p = "") ∧
    (∀ (p : Prefs) (input : TranslationInput) (o₁ o₂ : HttpOutcome) (m : String),
      getConfig p = .error m →
      translateText p input o₁ o₂ = (.error m, []) ∧
      testConnection p o₁ = (.error m, [])) ∧
    (∀ p : Prefs, p "provider" = none → getStringPref p "provider" "bedrock" = "bedrock") ∧
    (∀ p : Prefs, getStringPref p "provider" "bedrock" ≠ "openai" →
      getStringPref p "bedrock.apiKey" "" ≠ "" →
      p "bedrock.region" = none →
      getConfig p = .ok ⟨getStringPref p "provider" "bedrock",
        getStringPref p "bedrock.apiKey" "",
        getStringPref p "bedrock.modelId" "us.anthropic.claude-sonnet-4-5-20250929-v1:0",
        "us-east-1", ""⟩) ∧
    (∀ p : Prefs, getStringPref p "provider" "bedrock" = "openai" →
      getStringPref p "openai.apiKey" "" ≠ "" →
      p "openai.modelId" = none → p "openai.endpoint" = none →
      getConfig p = .ok ⟨"openai", getStringPref p "openai.apiKey" "", "gpt-4o", "",
        "https://api.openai.com/v1/chat/completions"⟩) := by
  refine ⟨?_, ?_, ?_, ?_, ?_⟩
  · intro p
    unfold getConfig resolvedApiKey
    dsimp only
    by_cases hp : getStringPref p "provider" "bedrock" = "openai" <;>
      [skip; skip] <;> simp only [hp, if_true, if_false, if_pos, if_neg] <;>
      [by_cases hk : getStringPref p "openai.apiKey" "" = "";
        by_cases hk : getStringPref p "bedrock.apiKey" "" = ""] <;>
      simp [hp, hk, Except.isOk, Except.toBool]
  · intro p input o₁ o₂ m h
    constructor
    · unfold translateText
      rw [h]
    · unfold testConnection
      rw [h]
  · intro p hp
    unfold getStringPref
    rw [hp]
  · intro p hp hk hr
    have hreg : getStringPref p "bedrock.region" "us-east-1" = "us-east-1" := by
      unfold getStringPref
      rw [hr]
    unfold getConfig
    dsimp only
    rw [if_neg hp, if_neg hk, hreg]
  · intro p hp hk hm he
    have hmod : getStringPref p "openai.modelId" "gpt-4o" = "gpt-4o" := by
      unfold getStringPref
      rw [hm]
    have hend : getStringPref p "openai.endpoint"
        "https://api.openai.com/v1/chat/completions" =
        "https://api.openai.com/v1/chat/completions" := by
      unfold getStringPref
      rw [he]
    unfold getConfig
    dsimp only
    rw [if_pos hp, if_neg hk, hp, hmod, hend]

/-- C3 witness: an empty store fails before any request; a store with
only the Bedrock key resolves the full default configuration. -/
theorem getConfig_apiKey_spec_witness :
    (getConfig prefsEmpty).isOk = false ∧
    translateText prefsEmpty inputShot okOutcome okOutcome =
      (.error "Bedrock API key not configured. Please set it in Vibe Translate preferences.",
        []) ∧
    testConnection prefsEmpty okOutcome =
      (.error "Bedrock API key not configured. Please set it in Vibe Translate preferences.",
        []) ∧
    getConfig prefsBedrock = .ok ⟨"bedrock", "test-key",
      "us.anthropic.claude-sonnet-4-5-20250929-v1:0", "us-east-1", ""⟩ :=
  ⟨(getConfig_apiKey_spec.1 prefsEmpty).mpr (by decide),
    (getConfig_apiKey_spec.2.1 prefsEmpty inputShot okOutcome okOutcome _ rfl).1,
    (getConfig_apiKey_spec.2.1 prefsEmpty inputShot okOutcome okOutcome _ rfl).2,
    getConfig_apiKey_spec.2.2.2.1 prefsBedrock (by decide) (by decide) rfl⟩

/-- C9 (amended): whenever the RESOLVED provider preference differs
from the string openai, getConfig resolves the Bedrock configuration
and callModel issues a Bedrock request; the only errors the dispatcher
path ever raises from configuration are the two missing-key messages,
never an unknown-provider error. -/
theorem provider_dispatch_spec :
    (∀ p : Prefs, getStringPref p "provider" "bedrock" ≠ "openai" →
      getConfig p =
        (if getStringPref p "bedrock.apiKey" "" = "" then
          .error "Bedrock API key not configured. Please set it in Vibe Translate preferences."
        else
          .ok ⟨getStringPref p "provider" "bedrock", getStringPref p "bedrock.apiKey" "",
            getStringPref p "bedrock.modelId" "us.anthropic.claude-sonnet-4-5-20250929-v1:0",
            getStringPref p "bedrock.region" "us-east-1", ""⟩) ∧
      (∀ cfg, getConfig p = .ok cfg →
        ∀ sp ut img o, (callModel p sp ut img o).2.map isBedrockReq = [true])) ∧
    (∀ (p : Prefs) (m : String), getConfig p = .error m →
      m = "OpenAI API key not configured. Please set it in Vibe Translate preferences." ∨
      m = "Bedrock API key not configured. Please set it in Vibe Translate preferences.") := by
  constructor
  · intro p hp
    have hA : getConfig p =
        (if getStringPref p "bedrock.apiKey" "" = "" then
          .error "Bedrock API key not configured. Please set it in Vibe Translate preferences."
        else
          .ok ⟨getStringPref p "provider" "bedrock", getStringPref p "bedrock.apiKey" "",
            getStringPref p "bedrock.modelId" "us.anthropic.claude-sonnet-4-5-20250929-v1:0",
            getStringPref p "bedrock.region" "us-east-1", ""⟩) := by
      unfold getConfig
      dsimp only
      rw [if_neg hp]
    refine ⟨hA, ?_⟩
    intro cfg hok sp ut img o
    rw [hA] at hok
    by_cases hk : getStringPref p "bedrock.apiKey" "" = ""
    · rw [if_pos hk] at hok
      cases hok
    · rw [if_neg hk] at hok
      have hcfg : cfg = ⟨getStringPref p "provider" "bedrock",
          getStringPref p "bedrock.apiKey" "",
          getStringPref p "bedrock.modelId" "us.anthropic.claude-sonnet-4-5-20250929-v1:0",
          getStringPref p "bedrock.region" "us-east-1", ""⟩ :=
        (Except.ok.inj hok).symm
      have hcm : getConfig p = .ok cfg := by
        rw [hA, if_neg hk, hcfg]
      rw [callModel_snd p cfg sp ut img o hcm]
      have hprov : cfg.provider ≠ "openai" := by
        rw [hcfg]
        exact hp
      simp [mkRequest, hprov, isBedrockReq]
  · intro p m h
    unfold getConfig at h
    dsimp only at h
    by_cases hp : getStringPref p "provider" "bedrock" = "openai"
    · rw [if_pos hp] at h
      by_cases hk : getStringPref p "openai.apiKey" "" = ""
      · rw [if_pos hk] at h
        exact Or.inl (Except.error.inj h).symm
      · rw [if_neg hk] at h
        cases h
    · rw [if_neg hp] at h
      by_cases hk : getStringPref p "bedrock.apiKey" "" = ""
      · rw [if_pos hk] at h
        exact Or.inr (Except.error.inj h).symm
      · rw [if_neg hk] at h
        cases h

/-- C9 witness: the default (unset) provider resolves to bedrock and
callModel issues a Bedrock request. -/
theorem provider_dispatch_spec_witness :
    (callModel prefsBedrock "s" "u" none okOutcome).2.map isBedrockReq = [true] :=
  (provider_dispatch_spec.1 prefsBedrock (by decide)).2
    ⟨"bedrock", "test-key", "us.anthropic.claude-sonnet-4-5-20250929-v1:0",
      "us-east-1", ""⟩ rfl "s" "u" none okOutcome

/-- C9 counterexample: the stored provider preference is the padded
string, which is not the exact string openai, yet getConfig resolves
the OpenAI configuration (the preference is trimmed first) and
callModel issues an OpenAI request, contradicting the claim as
stated. -/
theorem provider_dispatch_cex :
    prefsPaddedOpenAI "provider" = some " openai " ∧
    (" openai " : String) ≠ "openai" ∧
    getConfig prefsPaddedOpenAI =
      .ok ⟨"openai", "k", "gpt-4o", "", "https://api.openai.com/v1/chat/completions"⟩ ∧
    (callModel prefsPaddedOpenAI "s" "u" none okOutcome).2.map isBedrockReq = [false] :=
  ⟨rfl, by decide, rfl, rfl⟩

/-- Whether a caller result is the Bedrock HTTP-status error. -/
def isBedrockStatusError : Except String String → Bool
  | .error e => isPrefixOfL "Bedrock API error (".data e.data
  | .ok _ => false

/-- Whether a caller result is the OpenAI HTTP-status error. -/
def isOpenAIStatusError : Except String String → Bool
  | .error e => isPrefixOfL "OpenAI API error (".data e.data
  | .ok _ => false

/-- C8 (amended): for both callers a resolved HTTP response raises the
provider HTTP error exactly when the status differs from 200 (not: from
every non-2xx status), the raised message carries the status code and
the first 500 characters of the body, and a rejection carrying an
xmlhttp raises the same message. -/
theorem http_status_error_spec (p : Prefs) (cfg : Config) (mid : String)
    (b : BedrockBody) (b2 : OpenAIBody) (status : Nat)
    (resp : ParsedResponse) (rtext : String)
    (hc : getConfig p = .ok cfg) :
    (isBedrockStatusError (callBedrock p mid b (.ok status resp rtext)).1 = true ↔
      status ≠ 200) ∧
    (isOpenAIStatusError (callOpenAI p b2 (.ok status resp rtext)).1 = true ↔
      status ≠ 200) ∧
    (status ≠ 200 →
      (callBedrock p mid b (.ok status resp rtext)).1 =
        .error ("Bedrock API error (" ++ toString status ++ "): " ++ take500 rtext) ∧
      (callOpenAI p b2 (.ok status resp rtext)).1 =
        .error ("OpenAI API error (" ++ toString status ++ "): " ++ take500 rtext)) ∧
    (callBedrock p mid b (.errXhr status rtext)).1 =
      .error ("Bedrock API error (" ++ toString status ++ "): " ++ take500 rtext) ∧
    (callOpenAI p b2 (.errXhr status rtext)).1 =
      .error ("OpenAI API error (" ++ toString status ++ "): " ++ take500 rtext) := by
  refine ⟨?_, ?_, ?_, ?_, ?_⟩
  · by_cases hst : status = 200
    · subst hst
      rcases hcon : resp.bedrockContent with _ | parts
      · simp [callBedrock, hc, hcon, isBedrockStatusError]
        rfl
      · simp [callBedrock, hc, hcon, isBedrockStatusError]
    · simp [callBedrock, hc, hst, isBedrockStatusError]
      rfl
  · by_cases hst : status = 200
    · rcases hcon : resp.openaiContent with _ | content
      · simp [callOpenAI, hc, hst, hcon, isOpenAIStatusError]
        rfl
      · simp [callOpenAI, hc, hst, hcon, isOpenAIStatusError]
    · simp [callOpenAI, hc, hst, isOpenAIStatusError]
      rfl
  · intro hst
    constructor <;> simp [callBedrock, callOpenAI, hc, hst]
  · simp [callBedrock, hc]
  · simp [callOpenAI, hc]

/-- C8 witness at status 404. -/
theorem http_status_error_spec_witness :
    (callBedrock prefsBedrock "m" (buildBedrockBody "s" "u" none)
      (.ok 404 respGood "bad")).1 =
      .error ("Bedrock API error (" ++ toString 404 ++ "): " ++ take500 "bad") :=
  ((http_status_error_spec prefsBedrock
    ⟨"bedrock", "test-key", "us.anthropic.claude-sonnet-4-5-20250929-v1:0",
      "us-east-1", ""⟩
    "m" (buildBedrockBody "s" "u" none) (buildOpenAIBody "s" "u" none "m")
    404 respGood "bad" rfl).2.2.1 (by decide)).1

/-- C8 counterexample: status 201 is a success (2xx) status, yet the
caller raises the HTTP error, contradicting the claim that an error is
raised exactly on non-2xx statuses. -/
theorem http_status_error_cex :
    (callBedrock prefsBedrock "m" (buildBedrockBody "s" "u" none)
      (.ok 201 respGood "oops")).1 = .error "Bedrock API error (201): oops" ∧
    200 ≤ 201 ∧ 201 < 300 :=
  ⟨rfl, by decide, by decide⟩

/-- C1 (amended): when the first attempt fails, the one-shot fallback
is taken exactly when a screenshot was attached and the message
contains the exact substring image or Image (not: contains image under
a case-insensitive comparison); the fallback performs exactly one
further request and its result (trimmed on success) is returned;
otherwise the original error propagates with no second attempt. -/
theorem translateText_image_fallback (p : Prefs) (input : TranslationInput)
    (o₁ o₂ : HttpOutcome) (cfg : Config) (m : String) (rs : List HttpRequest)
    (hc : getConfig p = .ok cfg)
    (hfail : firstAttempt p input o₁ = (.error m, rs)) :
    ((hasScreenshotB input && (containsStr m "image" || containsStr m "Image")) = true →
      translateText p input o₁ o₂ =
        ((fallbackAttempt p input o₂).1.map jsTrim,
          rs ++ (fallbackAttempt p input o₂).2) ∧
      (fallbackAttempt p input o₂).2.length = 1) ∧
    ((hasScreenshotB input && (containsStr m "image" || containsStr m "Image")) = false →
      translateText p input o₁ o₂ = (.error m, rs)) := by
  constructor
  · intro hct
    constructor
    · unfold translateText
      rw [hc]
      dsimp only
      rw [hfail]
      dsimp only
      rw [hct, if_pos rfl]
      rcases hfb : fallbackAttempt p input o₂ with ⟨res, reqs₂⟩
      cases res <;> simp [Except.map]
    · unfold fallbackAttempt
      rw [callModel_snd p cfg _ _ _ o₂ hc]
      rfl
  · intro hcf
    unfold translateText
    rw [hc]
    dsimp only
    rw [hfail]
    dsimp only
    rw [hcf]
    simp

set_option maxRecDepth 40000 in
/-- C1 witness: a first failure whose message contains image triggers
exactly one image-free retry whose trimmed result is returned. -/
theorem translateText_image_fallback_witness :
    translateText prefsBedrock inputShot (.errPlain "no image support") okOutcome =
      ((fallbackAttempt prefsBedrock inputShot okOutcome).1.map jsTrim,
        (firstAttempt prefsBedrock inputShot (.errPlain "no image support")).2 ++
          (fallbackAttempt prefsBedrock inputShot okOutcome).2) ∧
    (fallbackAttempt prefsBedrock inputShot okOutcome).2.length = 1 :=
  (translateText_image_fallback prefsBedrock inputShot
    (.errPlain "no image support") okOutcome
    ⟨"bedrock", "test-key", "us.anthropic.claude-sonnet-4-5-20250929-v1:0",
      "us-east-1", ""⟩
    "HTTP request failed: no image support"
    (firstAttempt prefsBedrock inputShot (.errPlain "no image support")).2
    rfl rfl).1 rfl

set_option maxRecDepth 40000 in
/-- C1 counterexample: the message contains image under a
case-insensitive comparison and a screenshot is attached, yet no retry
happens (exactly one request is issued) and the original error is
returned, because the code tests only the exact substrings image and
Image. -/
theorem translateText_image_fallback_cex :
    containsCI "HTTP request failed: IMAGE unsupported" "image" = true ∧
    hasScreenshotB inputShot = true ∧
    translateText prefsBedrock inputShot (.errPlain "IMAGE unsupported") okOutcome =
      (.error "HTTP request failed: IMAGE unsupported",
        (firstAttempt prefsBedrock inputShot (.errPlain "IMAGE unsupported")).2) ∧
    (translateText prefsBedrock inputShot (.errPlain "IMAGE unsupported") okOutcome).2.length
      = 1 :=
  ⟨by decide, rfl, rfl, rfl⟩

/-- C2 (amended): when the fallback is taken, the second request
carries the same user text as the first, carries no image, and its
system prompt is not the first prompt but the prompt rebuilt with the
screenshot flag cleared. -/
theorem translateText_fallback_requests (p : Prefs) (input : TranslationInput)
    (o₁ o₂ : HttpOutcome) (cfg : Config) (m : String) (rs : List HttpRequest)
    (hc : getConfig p = .ok cfg)
    (hs : hasScreenshotB input = true)
    (hfail : firstAttempt p input o₁ = (.error m, rs))
    (himg : (containsStr m "image" || containsStr m "Image") = true) :
    (translateText p input o₁ o₂).2 =
      [mkRequest cfg
        (buildSystemPrompt (targetLangOf p) (isSingleWord input.text) true)
        (userTextOf input) input.pageScreenshot,
       mkRequest cfg
        (buildSystemPrompt (targetLangOf p) (isSingleWord input.text) false)
        (userTextOf input) none] ∧
    ((translateText p input o₁ o₂).2.map reqUserText) =
      [some (userTextOf input), some (userTextOf input)] ∧
    ((translateText p input o₁ o₂).2.map reqSystemPrompt) =
      [some (buildSystemPrompt (targetLangOf p) (isSingleWord input.text) true),
       some (buildSystemPrompt (targetLangOf p) (isSingleWord input.text) false)] ∧
    ((translateText p input o₁ o₂).2.map reqHasImage).getLast? = some false := by
  have hrs : rs = [mkRequest cfg
      (buildSystemPrompt (targetLangOf p) (isSingleWord input.text) true)
      (userTextOf input) input.pageScreenshot] := by
    have h2 : (firstAttempt p input o₁).2 = [mkRequest cfg
        (buildSystemPrompt (targetLangOf p) (isSingleWord input.text) true)
        (userTextOf input) input.pageScreenshot] := by
      unfold firstAttempt
      rw [callModel_snd _ cfg _ _ _ _ hc, hs]
      simp
    rw [hfail] at h2
    exact h2
  have hfb2 : (fallbackAttempt p input o₂).2 =
      [mkRequest cfg
        (buildSystemPrompt (targetLangOf p) (isSingleWord input.text) false)
        (userTextOf input) none] := by
    unfold fallbackAttempt
    rw [callModel_snd p cfg _ _ _ o₂ hc]
  have hreqs : (translateText p input o₁ o₂).2 = rs ++ (fallbackAttempt p input o₂).2 := by
    unfold translateText
    rw [hc]
    dsimp only
    rw [hfail]
    dsimp only
    rw [hs, himg, if_pos (show (true && true) = true from rfl)]
    rcases hfb : fallbackAttempt p input o₂ with ⟨res, reqs₂⟩
    cases res <;> simp
  rw [hreqs, hrs, hfb2]
  refine ⟨rfl, ?_, ?_, ?_⟩ <;>
    simp [reqUserText_mkRequest, reqSystemPrompt_mkRequest, reqHasImage_mkRequest_none]

set_option maxRecDepth 40000 in
/-- C2 witness: the concrete fallback run, via the amended theorem. -/
theorem translateText_fallback_requests_witness :
    ((translateText prefsBedrock inputShot (.errPlain "no image support")
      okOutcome).2.map reqUserText) = [some "Word: hello", some "Word: hello"] :=
  (translateText_fallback_requests prefsBedrock inputShot
    (.errPlain "no image support") okOutcome
    ⟨"bedrock", "test-key", "us.anthropic.claude-sonnet-4-5-20250929-v1:0",
      "us-east-1", ""⟩
    "HTTP request failed: no image support"
    (firstAttempt prefsBedrock inputShot (.errPlain "no image support")).2
    rfl rfl rfl rfl).2.1

set_option maxRecDepth 40000 in
/-- C2 counterexample: in a fallback run the two issued requests carry
different system prompts (the retry prompt is rebuilt without the
screenshot context), contradicting same system prompt. -/
theorem translateText_fallback_requests_cex :
    ((translateText prefsBedrock inputShot (.errPlain "no image support")
      okOutcome).2.map reqSystemPrompt) =
      [some (buildSystemPrompt "zh-CN" true true),
       some (buildSystemPrompt "zh-CN" true false)] ∧
    buildSystemPrompt "zh-CN" true true ≠ buildSystemPrompt "zh-CN" true false := by
  exact ⟨rfl, by decide⟩

/-- C6 (amended): every successful translateText result is a fixed
point of trimming; callModel and testConnection return the extracted
text as is. -/
theorem translateText_result_trimmed (p : Prefs) (input : TranslationInput)
    (o₁ o₂ : HttpOutcome) (r : String) (rs : List HttpRequest)
    (h : translateText p input o₁ o₂ = (.ok r, rs)) : jsTrim r = r := by
  unfold translateText at h
  rcases hgc : getConfig p with m | cfg <;> rw [hgc] at h <;> dsimp only at h
  · simp at h
  · rcases hfa : firstAttempt p input o₁ with ⟨res, reqs⟩
    rw [hfa] at h
    rcases res with e | result
    · dsimp only at h
      split at h
      · rcases hfb : fallbackAttempt p input o₂ with ⟨res₂, reqs₂⟩
        rw [hfb] at h
        rcases res₂ with e₂ | result₂
        · exact absurd (congrArg Prod.fst h) (by simp)
        · dsimp only at h
          have h1 : jsTrim result₂ = r := Except.ok.inj (congrArg Prod.fst h)
          rw [← h1]
          exact jsTrim_idem result₂
      · exact absurd (congrArg Prod.fst h) (by simp)
    · dsimp only at h
      have h1 : jsTrim result = r := Except.ok.inj (congrArg Prod.fst h)
      rw [← h1]
      exact jsTrim_idem result

set_option maxRecDepth 40000 in
/-- C6 witness: a successful run returns a trim fixed point. -/
theorem translateText_result_trimmed_witness : jsTrim "hi" = "hi" :=
  translateText_result_trimmed prefsBedrock inputShot
    (.errPlain "no image support") okOutcome "hi"
    (translateText prefsBedrock inputShot (.errPlain "no image support") okOutcome).2
    rfl

/-- C6 counterexample: testConnection resolves with the extracted text
untrimmed (the source trims only in translateText), contradicting the
claim that every success of testConnection is trimmed. -/
theorem translateText_result_trimmed_cex :
    (testConnection prefsBedrock okOutcome).1 = .ok "  hi  " ∧
    jsTrim "  hi  " ≠ "  hi  " :=
  ⟨rfl, by decide⟩

end VibeTranslate
